import Mathlib

/-!
A verification development for the workspace-lifecycle and batch-system
dispatch layer of the jobTree repository (file src/jobTreeRun.py).

The Python source is shallowly embedded: the mutable shared configuration
object becomes explicit state passing (every effectful function returns its
result together with the final configuration or file-system state), Python
exceptions become an explicit error type threaded through `Except`, and the
external backend constructors (which live in jobTree.batchSystems, outside
the shown source) are abstracted by an environment that records, per backend
kind, whether the constructor raises, and what rescue-job frequency a
constructed handle reports.

Python numeric values are modelled as `Int` (for int) and `ℚ` (for float:
every float literal appearing in the claims is exactly representable).
-/

namespace JobTreeRun

/-- sys.maxint on a 64-bit CPython 2 build: 2^63 - 1. -/
def sysMaxint : Int := 9223372036854775807

/-! ## Python numeral parsing (int() and float() on the strings this program handles) -/

/-- Accumulate a decimal numeral; any non-digit character makes the parse fail,
mirroring the ValueError raised by int()/float(). -/
def parseDigitsAux : List Char → Nat → Option Nat
  | [], acc => some acc
  | c :: rest, acc =>
    if c.isDigit then parseDigitsAux rest (acc * 10 + (c.toNat - 48)) else none

/-- A non-empty all-digit string parsed as a natural number. -/
def parseDigits : List Char → Option Nat
  | [] => none
  | cs => parseDigitsAux cs 0

/-- Python int(): an optional sign followed by decimal digits. -/
def pyIntChars : List Char → Option Int
  | '-' :: rest => (parseDigits rest).map (fun n => -(n : Int))
  | '+' :: rest => (parseDigits rest).map (fun n => (n : Int))
  | cs => (parseDigits cs).map (fun n => (n : Int))

/-- Python int() on a string. -/
def pyInt (s : String) : Option Int := pyIntChars s.data

/-- Split a character list at the first character satisfying p; the second
component is none when no such character occurs. -/
def splitAtFirst (p : Char → Bool) : List Char → List Char × Option (List Char)
  | [] => ([], none)
  | c :: rest =>
    if p c then ([], some rest)
    else
      let (a, b) := splitAtFirst p rest
      (c :: a, b)

/-- The fractional digits after the decimal point: empty means zero. -/
def parseFrac : List Char → Option ℚ
  | [] => some 0
  | cs =>
    match parseDigits cs with
    | none => none
    | some n => some ((n : ℚ) / (10 : ℚ) ^ cs.length)

/-- The mantissa of a Python float literal: digits, digits.digits, digits., or .digits. -/
def parseMantissa (cs : List Char) : Option ℚ :=
  match splitAtFirst (fun c => c == '.') cs with
  | (ip, none) => (parseDigits ip).map (fun n => (n : ℚ))
  | ([], some fp) =>
    match fp with
    | [] => none
    | _ =>
      match parseDigits fp with
      | none => none
      | some n => some ((n : ℚ) / (10 : ℚ) ^ fp.length)
  | (ip, some fp) =>
    match parseDigits ip, parseFrac fp with
    | some n, some f => some ((n : ℚ) + f)
    | _, _ => none

/-- An unsigned Python float literal with optional exponent part. -/
def pyFloatChars (cs : List Char) : Option ℚ :=
  let (mant, expOpt) := splitAtFirst (fun c => c == 'e' || c == 'E') cs
  match (match expOpt with | none => some (0 : Int) | some ecs => pyIntChars ecs) with
  | none => none
  | some e => (parseMantissa mant).map (fun m => m * (10 : ℚ) ^ e)

/-- Python float() on a string (decimal literals; inf/nan are not produced
nor consumed by this program). -/
def pyFloat (s : String) : Option ℚ :=
  match s.data with
  | '-' :: rest => (pyFloatChars rest).map Neg.neg
  | '+' :: rest => pyFloatChars rest
  | cs => pyFloatChars cs

/-- Python str(float(q)) for the values this program persists. Integral values
render as in CPython ("30.0"); the non-integral rendering is a deterministic
stand-in, and nothing in the embedded code re-parses these strings. -/
def pyFloatStr (q : ℚ) : String :=
  if q.den = 1 then toString q.num ++ ".0" else toString q.num ++ "/" ++ toString q.den

/-- Python str.split() with no argument: split on whitespace runs, dropping
empty fields. -/
def pySplitAux : List Char → List Char → List String
  | [], acc => if acc.isEmpty then [] else [String.mk acc.reverse]
  | c :: rest, acc =>
    if c.isWhitespace then
      if acc.isEmpty then pySplitAux rest []
      else String.mk acc.reverse :: pySplitAux rest []
    else pySplitAux rest (c :: acc)

/-- batchSystemString.split() from line 159 of jobTreeRun.py. -/
def pySplit (s : String) : List String := pySplitAux s.data []

/-! ## The configuration record

The config XML element built by createJobTree (lines 218-232). Attribute
values are Python strings; the two attributes that are not always present
(stats, and rescue_jobs_frequency which is only set after batch-system
construction) are Options. -/

structure Config where
  log_level : String
  job_tree : String
  parasol_command : String
  try_count : String
  max_job_duration : String
  batch_system : String
  job_time : String
  max_log_file_size : String
  default_memory : String
  default_cpu : String
  max_jobs : String
  max_threads : String
  stats : Option String
  rescue_jobs_frequency : Option String
deriving DecidableEq, Repr

/-! ## Errors and the batch-system environment -/

/-- The Python exceptions this layer can raise or propagate. -/
inductive RtErr where
  | unrecognisedBatchSystem (s : String)
  | valueError
  | ctorRaised
  | assertionError (msg : String)
  | parseError
  | osError
deriving DecidableEq, Repr

/-- The concrete backend classes dispatched to in batchSystemConstructionFn
(lines 135-155). acidTest is SingleMachineBatchSystem with workerFn=badWorker. -/
inductive BackendKind where
  | parasol
  | singleMachine
  | gridengine
  | torque
  | drmaa
  | drmaaTorque
  | acidTest
deriving DecidableEq, Repr

/-- A batch-system handle. A single handle records the configuration state it
was constructed with (the constructor reads the shared config); the combined
handle (CombinedBatchSystem, line 177) wraps two handles and the memory
threshold captured by the routing lambda. -/
inductive Handle where
  | single (kind : BackendKind) (constructedWith : Config)
  | combined (config : Config) (bs1 : Handle) (bs2 : Handle) (threshold : ℚ)
deriving DecidableEq, Repr

/-- The external world of backend constructors (classes in
jobTree.batchSystems, outside the shown source): per backend kind, whether
its constructor raises, and the rescue-job frequency a handle reports. -/
structure CtorEnv where
  fails : BackendKind → Bool
  rescueFreq : Handle → ℚ

/-- The name dispatch of batchSystemConstructionFn (lines 135-155): exact
string comparison against a fixed set of spellings, two per backend. -/
def resolveKind (batchSystemString : String) : Option BackendKind :=
  if batchSystemString == "parasol" then some .parasol
  else if batchSystemString == "single_machine" || batchSystemString == "singleMachine" then
    some .singleMachine
  else if batchSystemString == "gridengine" || batchSystemString == "gridEngine" then
    some .gridengine
  else if batchSystemString == "torque" || batchSystemString == "Torque" then
    some .torque
  else if batchSystemString == "drmaa" || batchSystemString == "Drmaa" then
    some .drmaa
  else if batchSystemString == "drmaaTorque" || batchSystemString == "DrmaaTorque" then
    some .drmaaTorque
  else if batchSystemString == "acid_test" || batchSystemString == "acidTest" then
    some .acidTest
  else none

/-- batchSystemConstructionFn (lines 133-156). Returns `ok none` for an
unrecognised name (the Python function returns None), propagates a
constructor exception, and for acidTest overwrites try_count with str(32)
after constructing the handle (line 155). -/
def batchSystemConstructionFn (env : CtorEnv) (batchSystemString : String) (config : Config) :
    Except RtErr (Option Handle) × Config :=
  match resolveKind batchSystemString with
  | none => (.ok none, config)
  | some k =>
    if env.fails k then (.error .ctorRaised, config)
    else if k = .acidTest then
      (.ok (some (.single k config)), { config with try_count := "32" })
    else (.ok (some (.single k config)), config)

/-- Lines 166-177 of loadTheBatchSystem: save the shared max_jobs value,
overwrite it with str(maxJobs), construct the first sub-backend, restore
str(oldMaxJobs) (no try/finally: a constructor exception skips the restore),
construct the second sub-backend, and combine both; either sub-name being
unrecognised raises after both construction attempts. -/
def hybridCtors (env : CtorEnv) (nameA nameB : String) (maxJobs : Int)
    (maxMemoryForBatchSystem1 : ℚ) (batchSystemString : String) (c : Config) :
    Except RtErr Handle × Config :=
  let oldMaxJobs := c.max_jobs
  match batchSystemConstructionFn env nameA { c with max_jobs := toString maxJobs } with
  | (.error e, c2) => (.error e, c2)
  | (.ok batchSystem1, c2) =>
    match batchSystemConstructionFn env nameB { c2 with max_jobs := oldMaxJobs } with
    | (.error e, c4) => (.error e, c4)
    | (.ok batchSystem2, c4) =>
      match batchSystem1, batchSystem2 with
      | some b1, some b2 =>
        (.ok (.combined c4 b1 b2 maxMemoryForBatchSystem1), c4)
      | _, _ => (.error (.unrecognisedBatchSystem batchSystemString), c4)

/-- Lines 158-177 of loadTheBatchSystem: the name was not a single backend,
so parse it as whitespace-separated fields (exactly 3 or 4 accepted), the
third a float memory threshold, the optional fourth an int max-jobs override
defaulting to sys.maxint, then run the two sub-constructions. -/
def loadHybrid (env : CtorEnv) (batchSystemString : String) (c : Config) :
    Except RtErr Handle × Config :=
  let batchSystems := pySplit batchSystemString
  if batchSystems.length = 3 ∨ batchSystems.length = 4 then
    match pyFloat (batchSystems.getD 2 "") with
    | none => (.error .valueError, c)
    | some maxMemoryForBatchSystem1 =>
      match (if batchSystems.length = 4 then pyInt (batchSystems.getD 3 "") else some sysMaxint) with
      | none => (.error .valueError, c)
      | some maxJobs =>
        hybridCtors env (batchSystems.getD 0 "") (batchSystems.getD 1 "") maxJobs
          maxMemoryForBatchSystem1 batchSystemString c
  else (.error (.unrecognisedBatchSystem batchSystemString), c)

/-- loadTheBatchSystem (lines 129-178): try the name as a single backend;
None falls through to the hybrid parse. -/
def loadTheBatchSystem (env : CtorEnv) (config : Config) : Except RtErr Handle × Config :=
  let batchSystemString := config.batch_system
  match batchSystemConstructionFn env batchSystemString config with
  | (.error e, c) => (.error e, c)
  | (.ok (some batchSystem), c) => (.ok batchSystem, c)
  | (.ok none, c) => loadHybrid env batchSystemString c

/-- The routing predicate of the combined handle (the lambda on line 177):
a submission goes to the first sub-backend exactly when its memory request is
at most the threshold. On a single handle there is no routing. -/
def Handle.routesToA : Handle → String → ℚ → ℚ → Option Bool
  | .combined _ _ _ t, _command, memory, _cpu => some (decide (memory ≤ t))
  | .single _ _, _, _, _ => none

/-- The max_jobs value recorded by a single handle at its construction. -/
def Handle.recordedMaxJobs : Handle → Option String
  | .single _ c => some c.max_jobs
  | .combined _ _ _ _ => none

/-! ## The configuration file (writeConfig, lines 189-195, and ET.parse, line 205)

The config is persisted as a single XML element whose attributes are the
config fields. The file is modelled as the list of rendered attribute pairs,
in the sorted key order ElementTree emits, with values passed through XML
attribute escaping; parsing looks each attribute up by name and unescapes. -/

/-- XML attribute escaping of one character, as in the _escape_attrib helper
of the Python 2.7 ElementTree serializer: it escapes the ampersand, the
angle brackets, the double quote and the newline, but notably NOT the tab
or the carriage return, which are written raw. -/
def escapeAttribChar (c : Char) : List Char :=
  if c = '&' then ['&', 'a', 'm', 'p', ';']
  else if c = '<' then ['&', 'l', 't', ';']
  else if c = '>' then ['&', 'g', 't', ';']
  else if c = '"' then ['&', 'q', 'u', 'o', 't', ';']
  else if c = '\n' then ['&', '#', '1', '0', ';']
  else [c]

/-- XML attribute escaping of a character list. -/
def escapeAttribList (cs : List Char) : List Char :=
  (cs.map escapeAttribChar).flatten

/-- The attribute read performed by ET.parse (expat): character references
are resolved, and XML attribute-value normalization replaces every literal
whitespace character (tab, carriage return — with CRLF first collapsed by
line-end normalization — and line feed) by a single space. Since the
serializer leaves tab and carriage return unescaped, those characters are
lossy across a write/read cycle. Only the references the serializer emits
need decoding here; a raw ampersand never occurs in written output. -/
def unescapeAttribList : List Char → List Char
  | [] => []
  | c :: rest =>
    if c = '&' then
      match rest with
      | 'a' :: 'm' :: 'p' :: ';' :: rest2 => '&' :: unescapeAttribList rest2
      | 'l' :: 't' :: ';' :: rest2 => '<' :: unescapeAttribList rest2
      | 'g' :: 't' :: ';' :: rest2 => '>' :: unescapeAttribList rest2
      | 'q' :: 'u' :: 'o' :: 't' :: ';' :: rest2 => '"' :: unescapeAttribList rest2
      | '#' :: '1' :: '0' :: ';' :: rest2 => '\n' :: unescapeAttribList rest2
      | r => c :: unescapeAttribList r
    else if c = '\r' then
      match rest with
      | '\n' :: rest2 => ' ' :: unescapeAttribList rest2
      | r => ' ' :: unescapeAttribList r
    else if c = '\t' then ' ' :: unescapeAttribList rest
    else if c = '\n' then ' ' :: unescapeAttribList rest
    else c :: unescapeAttribList rest
termination_by cs => cs.length
decreasing_by all_goals simp_all <;> omega

/-- XML attribute escaping of a string value. -/
def escapeAttrib (s : String) : String := String.mk (escapeAttribList s.data)

/-- XML attribute reading of a string value (reference decoding plus
whitespace normalization). -/
def unescapeAttrib (s : String) : String := String.mk (unescapeAttribList s.data)

/-- What attribute-value normalization does to one character that went
through the serializer: the escaped characters survive, a literal tab or
carriage return comes back as a space. -/
def normCh (c : Char) : Char := if c == '\t' || c == '\r' then ' ' else c

/-- A string value after a write/read cycle: every literal tab or carriage
return replaced by a space. -/
def normalizeAttrib (s : String) : String := String.mk (s.data.map normCh)

/-- Whether a string survives the write/read cycle unchanged: it holds no
literal tab and no literal carriage return. -/
def tabCrFree (s : String) : Bool := s.data.all (fun c => !(c == '\t' || c == '\r'))

/-- The rendered attribute list of the config element, in the sorted
attribute order the serializer emits; absent optional attributes are
omitted. -/
def configAttribs (c : Config) : List (String × String) :=
  [("batch_system", escapeAttrib c.batch_system),
   ("default_cpu", escapeAttrib c.default_cpu),
   ("default_memory", escapeAttrib c.default_memory),
   ("job_time", escapeAttrib c.job_time),
   ("job_tree", escapeAttrib c.job_tree),
   ("log_level", escapeAttrib c.log_level),
   ("max_job_duration", escapeAttrib c.max_job_duration),
   ("max_jobs", escapeAttrib c.max_jobs),
   ("max_log_file_size", escapeAttrib c.max_log_file_size),
   ("max_threads", escapeAttrib c.max_threads),
   ("parasol_command", escapeAttrib c.parasol_command)]
  ++ (match c.rescue_jobs_frequency with
      | some v => [("rescue_jobs_frequency", escapeAttrib v)]
      | none => [])
  ++ (match c.stats with
      | some v => [("stats", escapeAttrib v)]
      | none => [])
  ++ [("try_count", escapeAttrib c.try_count)]

/-- Look an attribute up by name in a rendered attribute list and unescape
its value (the parsed element behaves as a dict of attributes). -/
def lookupAttrib : List (String × String) → String → Option String
  | [], _ => none
  | (k, v) :: rest, key => if key = k then some (unescapeAttrib v) else lookupAttrib rest key

/-- Reconstruct a Config from a parsed attribute list; fails when a required
attribute is absent (the reload path reads every one of these fields). -/
def parseConfig (attrs : List (String × String)) : Option Config := do
  let log_level ← lookupAttrib attrs "log_level"
  let job_tree ← lookupAttrib attrs "job_tree"
  let parasol_command ← lookupAttrib attrs "parasol_command"
  let try_count ← lookupAttrib attrs "try_count"
  let max_job_duration ← lookupAttrib attrs "max_job_duration"
  let batch_system ← lookupAttrib attrs "batch_system"
  let job_time ← lookupAttrib attrs "job_time"
  let max_log_file_size ← lookupAttrib attrs "max_log_file_size"
  let default_memory ← lookupAttrib attrs "default_memory"
  let default_cpu ← lookupAttrib attrs "default_cpu"
  let max_jobs ← lookupAttrib attrs "max_jobs"
  let max_threads ← lookupAttrib attrs "max_threads"
  pure { log_level, job_tree, parasol_command, try_count, max_job_duration,
         batch_system, job_time, max_log_file_size, default_memory, default_cpu,
         max_jobs, max_threads,
         stats := lookupAttrib attrs "stats",
         rescue_jobs_frequency := lookupAttrib attrs "rescue_jobs_frequency" }

/-- Whether an optional attribute value satisfies a predicate when present. -/
def optAll (p : String → Bool) : Option String → Bool
  | none => true
  | some v => p v

/-- A configuration record after a write/read cycle: every field passes
through attribute-value normalization. -/
def normalizeConfig (c : Config) : Config :=
  { log_level := normalizeAttrib c.log_level
    job_tree := normalizeAttrib c.job_tree
    parasol_command := normalizeAttrib c.parasol_command
    try_count := normalizeAttrib c.try_count
    max_job_duration := normalizeAttrib c.max_job_duration
    batch_system := normalizeAttrib c.batch_system
    job_time := normalizeAttrib c.job_time
    max_log_file_size := normalizeAttrib c.max_log_file_size
    default_memory := normalizeAttrib c.default_memory
    default_cpu := normalizeAttrib c.default_cpu
    max_jobs := normalizeAttrib c.max_jobs
    max_threads := normalizeAttrib c.max_threads
    stats := c.stats.map normalizeAttrib
    rescue_jobs_frequency := c.rescue_jobs_frequency.map normalizeAttrib }

/-- Whether a configuration record survives the write/read cycle unchanged:
no field holds a literal tab or carriage return. -/
def configTabCrFree (c : Config) : Bool :=
  tabCrFree c.log_level && tabCrFree c.job_tree && tabCrFree c.parasol_command &&
  tabCrFree c.try_count && tabCrFree c.max_job_duration && tabCrFree c.batch_system &&
  tabCrFree c.job_time && tabCrFree c.max_log_file_size && tabCrFree c.default_memory &&
  tabCrFree c.default_cpu && tabCrFree c.max_jobs && tabCrFree c.max_threads &&
  optAll tabCrFree c.stats && optAll tabCrFree c.rescue_jobs_frequency

/-! ## Job records -/

/-- The job-records directory under the workspace root (getJobFileDirName
lives in jobTree.src.master, outside the shown source).
Modelled from the spec: the workspace holds a job-records subdirectory. -/
def getJobFileDirName (jobTree : String) : String := jobTree ++ "/jobs"

/-- The shape of the root job record built by createFirstJob (lines 254-255):
command, memory and cpu requests, remaining try count, owning directory. -/
structure Job where
  command : String
  memory : ℚ
  cpu : ℚ
  tryCount : Int
  jobDir : String
deriving DecidableEq, Repr

/-! ## The workspace file system

The state of the single workspace path a run operates on: whether the path
is a directory, the contents of the config file, whether the environment
pickle exists, whether the jobs subdirectory exists, and the job records
written so far. -/

structure FS where
  isDir : Bool
  configFile : Option (List (String × String))
  envFile : Bool
  jobFileDir : Bool
  jobRecords : List Job
deriving DecidableEq, Repr

/-- writeConfig (lines 189-195): serialize the config element over the
config file. -/
def writeConfig (config : Config) (fs : FS) : FS :=
  { fs with configFile := some (configAttribs config) }

/-- loadEnvironment (lines 180-187): dump os.environ over the environment
pickle file. -/
def loadEnvironment (_config : Config) (fs : FS) : FS :=
  { fs with envFile := true }

/-! ## The workspace lifecycle -/

/-- The CLI options consumed by the create path (see _addOptions,
lines 70-115). Values are typed as the int()/float() coercions in
createJobTree expect them. -/
structure Options where
  command : Option String
  jobTree : Option String
  batchSystem : String
  parasolCommand : String
  retryCount : Int
  maxJobDuration : ℚ
  jobTime : ℚ
  maxLogFileSize : Int
  defaultMemory : Int
  defaultCpu : Int
  maxJobs : Int
  maxThreads : Int
  stats : Bool
  rescueJobsFrequency : Option ℚ

/-- reloadJobTree (lines 197-211): assert the three artifacts exist, parse
the config file, overwrite only log_level with the current level, persist,
and reconstruct the batch system. The current log level (an ambient process
value in the source, getLogLevelString) is passed explicitly. -/
def reloadJobTree (env : CtorEnv) (logLevel : String) (fs : FS) :
    Except RtErr (Config × Handle) × FS :=
  match fs.configFile with
  | none => (.error (.assertionError "A valid job tree must contain the config file"), fs)
  | some attrs =>
    if !fs.envFile then
      (.error (.assertionError "A valid job tree must contain a pickle file which encodes the path environment of the job"), fs)
    else if !fs.jobFileDir then
      (.error (.assertionError "A job tree must have a directory of jobs"), fs)
    else
      match parseConfig attrs with
      | none => (.error .parseError, fs)
      | some config =>
        let config := { config with log_level := logLevel }
        let fs := writeConfig config fs
        match loadTheBatchSystem env config with
        | (.error e, _) => (.error e, fs)
        | (.ok batchSystem, config) => (.ok (config, batchSystem), fs)

/-- The config element drafted by createJobTree (lines 218-232), before
batch-system construction. The caller has already asserted jobTree is
present; os.path.abspath normalization of the path string is left out (the
path is carried verbatim). -/
def draftConfig (logLevel : String) (options : Options) : Config :=
  { log_level := logLevel
    job_tree := options.jobTree.getD ""
    parasol_command := options.parasolCommand
    try_count := toString (options.retryCount + 1)
    max_job_duration := pyFloatStr options.maxJobDuration
    batch_system := options.batchSystem
    job_time := pyFloatStr options.jobTime
    max_log_file_size := toString options.maxLogFileSize
    default_memory := toString options.defaultMemory
    default_cpu := toString options.defaultCpu
    max_jobs := toString options.maxJobs
    max_threads := toString options.maxThreads
    stats := if options.stats then some "" else none
    rescue_jobs_frequency := none }

/-- createJobTree (lines 213-244): make the workspace and jobs directories,
draft the config record from the options, construct the batch system, set
the rescue-jobs frequency (caller override wins), and persist the config. -/
def createJobTree (env : CtorEnv) (logLevel : String) (options : Options) (fs : FS) :
    Except RtErr (Config × Handle) × FS :=
  if fs.isDir then (.error .osError, fs)
  else
    let fs := { fs with isDir := true, jobFileDir := true }
    let config := draftConfig logLevel options
    match loadTheBatchSystem env config with
    | (.error e, _) => (.error e, fs)
    | (.ok batchSystem, config) =>
      let config := { config with
        rescue_jobs_frequency := some (pyFloatStr (env.rescueFreq batchSystem)) }
      let config :=
        match options.rescueJobsFrequency with
        | some f => { config with rescue_jobs_frequency := some (pyFloatStr f) }
        | none => config
      let fs := writeConfig config fs
      (.ok (config, batchSystem), fs)

/-- Lift an optional value into Except, as a raised ValueError. -/
def ofParse : Option α → Except RtErr α
  | some a => .ok a
  | none => .error .valueError

/-- createFirstJob (lines 246-257): a memory or cpu argument that is None or
sys.maxint is replaced by the configured default; the try count is the
parsed try_count field. -/
def createFirstJob (command : String) (config : Config)
    (memory : Option ℚ) (cpu : Option ℚ) : Except RtErr Job := do
  let memory ← match memory with
    | none => ofParse (pyFloat config.default_memory)
    | some m =>
      if m = (sysMaxint : ℚ) then ofParse (pyFloat config.default_memory) else pure m
  let cpu ← match cpu with
    | none => ofParse (pyFloat config.default_cpu)
    | some m =>
      if m = (sysMaxint : ℚ) then ofParse (pyFloat config.default_cpu) else pure m
  let tryCount ← ofParse (pyInt config.try_count)
  pure { command := command, memory := memory, cpu := cpu, tryCount := tryCount,
         jobDir := getJobFileDirName config.job_tree }

/-- runJobTreeScript (lines 259-273): reload when the path is a directory,
otherwise create the workspace and its first job; either way snapshot the
environment. The mainLoop handoff is external, so the resolved configuration
and handle are the result. -/
def runJobTreeScript (env : CtorEnv) (logLevel : String) (options : Options) (fs : FS) :
    Except RtErr (Config × Handle) × FS :=
  match options.jobTree with
  | none => (.error (.assertionError "We need a job tree, or a place to create one"), fs)
  | some _ =>
    if fs.isDir then
      match reloadJobTree env logLevel fs with
      | (.error e, fs) => (.error e, fs)
      | (.ok (config, batchSystem), fs) =>
        (.ok (config, batchSystem), loadEnvironment config fs)
    else
      match options.command with
      | none => (.error (.assertionError "options.command != None"), fs)
      | some command =>
        match createJobTree env logLevel options fs with
        | (.error e, fs) => (.error e, fs)
        | (.ok (config, batchSystem), fs) =>
          match createFirstJob command config none none with
          | .error e => (.error e, fs)
          | .ok job =>
            let fs := { fs with jobRecords := fs.jobRecords ++ [job] }
            (.ok (config, batchSystem), loadEnvironment config fs)

/-! ## Serialization round-trip lemmas -/

set_option maxHeartbeats 2000000 in
lemma unescape_cons_eq (c : Char) (rest : List Char) :
    unescapeAttribList (c :: rest) =
      (if c = '&' then
        match rest with
        | 'a' :: 'm' :: 'p' :: ';' :: rest2 => '&' :: unescapeAttribList rest2
        | 'l' :: 't' :: ';' :: rest2 => '<' :: unescapeAttribList rest2
        | 'g' :: 't' :: ';' :: rest2 => '>' :: unescapeAttribList rest2
        | 'q' :: 'u' :: 'o' :: 't' :: ';' :: rest2 => '"' :: unescapeAttribList rest2
        | '#' :: '1' :: '0' :: ';' :: rest2 => '\n' :: unescapeAttribList rest2
        | r => c :: unescapeAttribList r
      else if c = '\r' then
        match rest with
        | '\n' :: rest2 => ' ' :: unescapeAttribList rest2
        | r => ' ' :: unescapeAttribList r
      else if c = '\t' then ' ' :: unescapeAttribList rest
      else if c = '\n' then ' ' :: unescapeAttribList rest
      else c :: unescapeAttribList rest) := by
  rw [unescapeAttribList.eq_def]

lemma unescape_cons_of_ne (c : Char) (l : List Char)
    (h1 : c ≠ '&') (h2 : c ≠ '\r') (h3 : c ≠ '\t') (h4 : c ≠ '\n') :
    unescapeAttribList (c :: l) = c :: unescapeAttribList l := by
  rw [unescape_cons_eq, if_neg h1, if_neg h2, if_neg h3, if_neg h4]

lemma unescape_tab (l : List Char) :
    unescapeAttribList ('\t' :: l) = ' ' :: unescapeAttribList l := by
  rw [unescape_cons_eq, if_neg (show ¬('\t' = '&') by decide),
    if_neg (show ¬('\t' = '\r') by decide), if_pos rfl]

lemma unescape_cr_cons (d : Char) (l : List Char) (hd : d ≠ '\n') :
    unescapeAttribList ('\r' :: d :: l) = ' ' :: unescapeAttribList (d :: l) := by
  rw [unescape_cons_eq, if_neg (show ¬('\r' = '&') by decide), if_pos rfl]
  split
  · simp_all
  · rfl

lemma escapeAttribChar_ne_nil (c : Char) : escapeAttribChar c ≠ [] := by
  unfold escapeAttribChar
  split
  · simp
  · split
    · simp
    · split
      · simp
      · split
        · simp
        · split <;> simp

lemma escapeAttribChar_head_ne_lf (c : Char) (d : Char) (l : List Char)
    (h : escapeAttribChar c = d :: l) : d ≠ '\n' := by
  unfold escapeAttribChar at h
  split at h
  · obtain ⟨hd, _⟩ := List.cons.inj h
    rw [← hd]; decide
  split at h
  · obtain ⟨hd, _⟩ := List.cons.inj h
    rw [← hd]; decide
  split at h
  · obtain ⟨hd, _⟩ := List.cons.inj h
    rw [← hd]; decide
  split at h
  · obtain ⟨hd, _⟩ := List.cons.inj h
    rw [← hd]; decide
  split at h
  · obtain ⟨hd, _⟩ := List.cons.inj h
    rw [← hd]; decide
  · obtain ⟨hd, _⟩ := List.cons.inj h
    rw [← hd]
    assumption

lemma escape_head_ne_lf (t : List Char) (d : Char) (l : List Char)
    (h : escapeAttribList t = d :: l) : d ≠ '\n' := by
  cases t with
  | nil => simp [escapeAttribList] at h
  | cons c t2 =>
    have he : escapeAttribList (c :: t2) = escapeAttribChar c ++ escapeAttribList t2 := by
      simp [escapeAttribList]
    rw [he] at h
    cases hec : escapeAttribChar c with
    | nil => exact absurd hec (escapeAttribChar_ne_nil c)
    | cons e es =>
      rw [hec, List.cons_append] at h
      obtain ⟨hd, _⟩ := List.cons.inj h
      rw [← hd]
      exact escapeAttribChar_head_ne_lf c e es hec

lemma unescape_escapeChar_step (c : Char) (t : List Char) :
    unescapeAttribList (escapeAttribChar c ++ escapeAttribList t)
      = normCh c :: unescapeAttribList (escapeAttribList t) := by
  by_cases h1 : c = '&'
  · subst h1; with_unfolding_all rfl
  by_cases h2 : c = '<'
  · subst h2; with_unfolding_all rfl
  by_cases h3 : c = '>'
  · subst h3; with_unfolding_all rfl
  by_cases h4 : c = '"'
  · subst h4; with_unfolding_all rfl
  by_cases h5 : c = '\n'
  · subst h5; with_unfolding_all rfl
  have he : escapeAttribChar c = [c] := by
    simp [escapeAttribChar, h1, h2, h3, h4, h5]
  rw [he]
  by_cases h6 : c = '\t'
  · subst h6
    rw [List.singleton_append, unescape_tab]
    rfl
  by_cases h7 : c = '\r'
  · subst h7
    rw [List.singleton_append]
    cases hL : escapeAttribList t with
    | nil => with_unfolding_all rfl
    | cons d l =>
      rw [unescape_cr_cons d l (escape_head_ne_lf t d l hL)]
      rfl
  · rw [List.singleton_append, unescape_cons_of_ne c _ h1 h7 h6 h5]
    have hn : normCh c = c := by simp [normCh, h6, h7]
    rw [hn]

lemma unescape_escape_list (cs : List Char) :
    unescapeAttribList (escapeAttribList cs) = cs.map normCh := by
  induction cs with
  | nil => with_unfolding_all rfl
  | cons c t ih =>
    have h : escapeAttribList (c :: t) = escapeAttribChar c ++ escapeAttribList t := by
      simp [escapeAttribList]
    rw [h, unescape_escapeChar_step, ih]
    rfl

/-- A write/read cycle on one attribute value is exactly attribute-value
normalization: literal tab and carriage return become spaces, everything
else survives. -/
lemma unescape_escape (s : String) : unescapeAttrib (escapeAttrib s) = normalizeAttrib s := by
  cases s with
  | mk data =>
    simp [escapeAttrib, unescapeAttrib, normalizeAttrib, unescape_escape_list]

lemma map_normCh_eq_self (l : List Char)
    (h : ∀ c ∈ l, (!(c == '\t' || c == '\r')) = true) : l.map normCh = l := by
  induction l with
  | nil => rfl
  | cons c t ih =>
    have hc := h c (List.mem_cons_self c t)
    have hrec := ih (fun x hx => h x (List.mem_cons_of_mem c hx))
    have hc2 : (c == '\t' || c == '\r') = false := by
      cases hcc : (c == '\t' || c == '\r') <;> simp_all
    have hn : normCh c = c := by
      simp [normCh, hc2]
    simp [List.map_cons, hrec, hn]

lemma normalizeAttrib_eq_self (s : String) (h : tabCrFree s = true) :
    normalizeAttrib s = s := by
  cases s with
  | mk data =>
    have h2 : ∀ c ∈ data, (!(c == '\t' || c == '\r')) = true := by
      simpa [tabCrFree, List.all_eq_true] using h
    simp [normalizeAttrib, map_normCh_eq_self data h2]

lemma normalizeConfig_eq_self (c : Config) (h : configTabCrFree c = true) :
    normalizeConfig c = c := by
  obtain ⟨ll, jt, pc, tc, mjd, bs, jtm, mlfs, dm, dc, mj, mt, st, rjf⟩ := c
  simp only [configTabCrFree, Bool.and_eq_true] at h
  obtain ⟨⟨⟨⟨⟨⟨⟨⟨⟨⟨⟨⟨⟨h1, h2⟩, h3⟩, h4⟩, h5⟩, h6⟩, h7⟩, h8⟩, h9⟩, h10⟩, h11⟩, h12⟩, h13⟩, h14⟩ := h
  cases st <;> cases rjf <;>
    · simp only [optAll] at h13 h14
      simp [normalizeConfig, normalizeAttrib_eq_self, h1, h2, h3, h4, h5, h6, h7, h8, h9,
        h10, h11, h12, h13, h14]

lemma lookupAttrib_cons (k v : String) (rest : List (String × String)) (key : String) :
    lookupAttrib ((k, v) :: rest) key
      = if key = k then some (unescapeAttrib v) else lookupAttrib rest key := rfl

set_option maxHeartbeats 1000000 in
/-- Reading back a written configuration yields the record with every field
normalized (tab and carriage return turned into spaces). -/
lemma config_roundtrip_norm (c : Config) :
    parseConfig (configAttribs c) = some (normalizeConfig c) := by
  obtain ⟨ll, jt, pc, tc, mjd, bs, jtm, mlfs, dm, dc, mj, mt, st, rjf⟩ := c
  cases rjf <;> cases st <;>
    simp [parseConfig, configAttribs, lookupAttrib_cons, lookupAttrib, unescape_escape,
      normalizeConfig]

/-- The round trip is exact on records whose fields hold no literal tab or
carriage return. -/
lemma config_roundtrip (c : Config) (h : configTabCrFree c = true) :
    parseConfig (configAttribs c) = some c := by
  rw [config_roundtrip_norm c, normalizeConfig_eq_self c h]

/-! ## Characterizations of the batch-system dispatch -/


/-- Shorthand for the try_count overwrite the acid-test branch performs. -/
def setTry (c : Config) : Config := { c with try_count := "32" }

/-- Whether the external constructor invoked for this backend name would
raise (false also for unrecognised names, which construct nothing). -/
def ctorRaisesOnName (env : CtorEnv) (s : String) : Bool :=
  match resolveKind s with
  | some k => env.fails k
  | none => false

lemma bscf_fst (env : CtorEnv) (s : String) (c : Config) :
    (batchSystemConstructionFn env s c).1 =
      match resolveKind s with
      | none => .ok none
      | some k => if env.fails k then .error .ctorRaised else .ok (some (.single k c)) := by
  unfold batchSystemConstructionFn
  cases hk : resolveKind s with
  | none => rfl
  | some k =>
    by_cases hf : env.fails k
    · simp [hf]
    · by_cases ha : k = BackendKind.acidTest
      · subst ha; simp [hf]
      · simp [hf, ha]

lemma bscf_snd (env : CtorEnv) (s : String) (c : Config) :
    (batchSystemConstructionFn env s c).2 =
      if resolveKind s = some BackendKind.acidTest ∧ env.fails .acidTest = false
      then setTry c else c := by
  unfold batchSystemConstructionFn
  cases hk : resolveKind s with
  | none => simp
  | some k =>
    by_cases hf : env.fails k
    · by_cases ha : k = BackendKind.acidTest
      · subst ha; simp [hf]
      · simp [hf, ha]
    · by_cases ha : k = BackendKind.acidTest
      · subst ha; simp [hf, setTry]
      · simp [hf, ha]

lemma bscf_snd_max_jobs (env : CtorEnv) (s : String) (c : Config) :
    ((batchSystemConstructionFn env s c).2).max_jobs = c.max_jobs := by
  rw [bscf_snd]; split <;> rfl

lemma bscf_fst_error (env : CtorEnv) (s : String) (c : Config) (e : RtErr)
    (h : (batchSystemConstructionFn env s c).1 = .error e) :
    ctorRaisesOnName env s = true := by
  rw [bscf_fst] at h
  cases hk : resolveKind s with
  | none => rw [hk] at h; simp at h
  | some k =>
    rw [hk] at h
    simp only [ctorRaisesOnName, hk]
    by_cases hf : env.fails k
    · exact hf
    · simp [hf] at h

lemma hybridCtors_max_jobs (env : CtorEnv) (a b : String) (mj : Int) (t : ℚ)
    (nm : String) (c : Config) (hA : ctorRaisesOnName env a = false) :
    ((hybridCtors env a b mj t nm c).2).max_jobs = c.max_jobs := by
  simp only [hybridCtors]
  rcases h1 : batchSystemConstructionFn env a { c with max_jobs := toString mj } with ⟨r1, c2⟩
  cases r1 with
  | error e =>
    have := bscf_fst_error env a { c with max_jobs := toString mj } e (by rw [h1])
    rw [this] at hA; cases hA
  | ok ob1 =>
    dsimp only
    rcases h2 : batchSystemConstructionFn env b { c2 with max_jobs := c.max_jobs } with ⟨r2, c4⟩
    have hc4 : c4.max_jobs = c.max_jobs := by
      have := bscf_snd_max_jobs env b { c2 with max_jobs := c.max_jobs }
      rw [h2] at this; exact this
    cases r2 with
    | error e => exact hc4
    | ok ob2 => cases ob1 <;> cases ob2 <;> exact hc4

lemma hybridCtors_raiseA (env : CtorEnv) (a b : String) (mj : Int) (t : ℚ)
    (nm : String) (c : Config) (hA : ctorRaisesOnName env a = true) :
    hybridCtors env a b mj t nm c = (.error .ctorRaised, { c with max_jobs := toString mj }) := by
  unfold ctorRaisesOnName at hA
  have h1 : batchSystemConstructionFn env a { c with max_jobs := toString mj }
      = (.error .ctorRaised, { c with max_jobs := toString mj }) := by
    cases hk : resolveKind a with
    | none => rw [hk] at hA; simp at hA
    | some k =>
      rw [hk] at hA; simp at hA
      unfold batchSystemConstructionFn
      rw [hk]
      simp [hA]
  simp only [hybridCtors]
  rw [h1]


lemma hybridCtors_ok (env : CtorEnv) (a b : String) (mj : Int) (t : ℚ)
    (nm : String) (c : Config) (h : Handle) (c' : Config)
    (hl : hybridCtors env a b mj t nm c = (.ok h, c')) :
    ∃ ka kb,
      resolveKind a = some ka ∧ resolveKind b = some kb ∧
      env.fails ka = false ∧ env.fails kb = false ∧
      h = .combined c' (.single ka { c with max_jobs := toString mj })
            (.single kb (if ka = BackendKind.acidTest then setTry c else c)) t ∧
      c' = (if ka = BackendKind.acidTest ∨ kb = BackendKind.acidTest then setTry c else c) := by
  simp only [hybridCtors] at hl
  rcases h1 : batchSystemConstructionFn env a { c with max_jobs := toString mj } with ⟨r1, c2⟩
  rw [h1] at hl
  have hr1 : r1 = (match resolveKind a with
      | none => .ok none
      | some k => if env.fails k then .error .ctorRaised
                  else .ok (some (.single k { c with max_jobs := toString mj }))) := by
    have := bscf_fst env a { c with max_jobs := toString mj }
    rw [h1] at this; simpa using this
  have hc2 : c2 = (if resolveKind a = some BackendKind.acidTest ∧ env.fails .acidTest = false
      then setTry { c with max_jobs := toString mj } else { c with max_jobs := toString mj }) := by
    have := bscf_snd env a { c with max_jobs := toString mj }
    rw [h1] at this; simpa using this
  cases hk : resolveKind a with
  | none =>
    rw [hk] at hr1 hc2
    simp only [] at hr1
    subst hr1
    dsimp only at hl
    rcases h2 : batchSystemConstructionFn env b { c2 with max_jobs := c.max_jobs } with ⟨r2, c4⟩
    rw [h2] at hl
    cases r2 with
    | error e => simp at hl
    | ok ob2 =>
      dsimp only at hl
      cases ob2 <;> simp at hl
  | some ka =>
    rw [hk] at hr1 hc2
    by_cases hf : env.fails ka
    · simp [hf] at hr1
      subst hr1
      dsimp only at hl
      simp at hl
    · simp only [Bool.not_eq_true] at hf
      simp [hf] at hr1
      subst hr1
      dsimp only at hl
      rcases h2 : batchSystemConstructionFn env b { c2 with max_jobs := c.max_jobs } with ⟨r2, c4⟩
      rw [h2] at hl
      have hr2 : r2 = (match resolveKind b with
          | none => .ok none
          | some k => if env.fails k then .error .ctorRaised
                      else .ok (some (.single k { c2 with max_jobs := c.max_jobs }))) := by
        have := bscf_fst env b { c2 with max_jobs := c.max_jobs }
        rw [h2] at this; simpa using this
      have hc4 : c4 = (if resolveKind b = some BackendKind.acidTest ∧ env.fails .acidTest = false
          then setTry { c2 with max_jobs := c.max_jobs } else { c2 with max_jobs := c.max_jobs }) := by
        have := bscf_snd env b { c2 with max_jobs := c.max_jobs }
        rw [h2] at this; simpa using this
      cases hkb : resolveKind b with
      | none =>
        rw [hkb] at hr2
        simp only [] at hr2
        subst hr2
        dsimp only at hl
        simp at hl
      | some kb =>
        rw [hkb] at hr2
        by_cases hfb : env.fails kb
        · simp [hfb] at hr2
          subst hr2
          dsimp only at hl
          simp at hl
        · simp only [Bool.not_eq_true] at hfb
          simp [hfb] at hr2
          subst hr2
          dsimp only at hl
          rw [Prod.mk.injEq] at hl
          obtain ⟨hh, hcc⟩ := hl
          rw [Except.ok.injEq] at hh
          refine ⟨ka, kb, rfl, rfl, hf, hfb, ?_, ?_⟩
          · rw [← hh, ← hcc]
            congr 1
            rw [hc2]
            by_cases hka : ka = BackendKind.acidTest
            · subst hka; simp [hf, setTry]
            · simp [hka, setTry]
          · rw [← hcc, hc4, hc2, hkb]
            by_cases hka : ka = BackendKind.acidTest
            · subst hka
              by_cases hkb2 : kb = BackendKind.acidTest
              · subst hkb2; simp [hf, hfb, setTry]
              · simp [hkb2, hf, setTry]
            · by_cases hkb2 : kb = BackendKind.acidTest
              · subst hkb2; simp [hka, hfb, setTry]
              · simp [hka, hkb2, setTry]


/-- The max-jobs value substituted while constructing the first sub-backend:
the parsed 4th field, or sys.maxint in the 3-field form. -/
def hybridMaxJobs (s : String) : Int :=
  if (pySplit s).length = 4 then (pyInt ((pySplit s).getD 3 "")).getD 0 else sysMaxint

/-- A backend name that is not a single-backend token but parses as a
3- or 4-field hybrid spec with a numeric threshold (and numeric max-jobs
override when present). -/
def hybridWellFormed (s : String) : Bool :=
  (resolveKind s).isNone &&
  ((pySplit s).length == 3 || (pySplit s).length == 4) &&
  (pyFloat ((pySplit s).getD 2 "")).isSome &&
  ((pySplit s).length != 4 || (pyInt ((pySplit s).getD 3 "")).isSome)

lemma loadHybrid_max_jobs (env : CtorEnv) (s : String) (c : Config)
    (hA : ctorRaisesOnName env ((pySplit s).getD 0 "") = false) :
    ((loadHybrid env s c).2).max_jobs = c.max_jobs := by
  simp only [loadHybrid]
  split
  · cases hm : pyFloat ((pySplit s).getD 2 "") with
    | none => rfl
    | some t =>
      cases hj : (if (pySplit s).length = 4 then pyInt ((pySplit s).getD 3 "") else some sysMaxint) with
      | none => rfl
      | some mj => exact hybridCtors_max_jobs env _ _ mj t s c hA
  · rfl

lemma load_eq_hybrid (env : CtorEnv) (c : Config) (hr : resolveKind c.batch_system = none) :
    loadTheBatchSystem env c = loadHybrid env c.batch_system c := by
  simp only [loadTheBatchSystem]
  rcases h1 : batchSystemConstructionFn env c.batch_system c with ⟨r1, cc⟩
  have hr1 : r1 = .ok none := by
    have := bscf_fst env c.batch_system c
    rw [h1, hr] at this; simpa using this
  have hcc : cc = c := by
    have := bscf_snd env c.batch_system c
    rw [h1, hr] at this; simpa using this
  subst hr1; subst hcc
  rfl

lemma load_single (env : CtorEnv) (c : Config) (k : BackendKind)
    (hr : resolveKind c.batch_system = some k) (hf : env.fails k = false) :
    loadTheBatchSystem env c
      = (.ok (.single k c), if k = BackendKind.acidTest then setTry c else c) := by
  simp only [loadTheBatchSystem]
  rcases h1 : batchSystemConstructionFn env c.batch_system c with ⟨r1, cc⟩
  have hr1 : r1 = .ok (some (.single k c)) := by
    have := bscf_fst env c.batch_system c
    rw [h1, hr] at this; simpa [hf] using this
  have hcc : cc = if k = BackendKind.acidTest then setTry c else c := by
    have := bscf_snd env c.batch_system c
    rw [h1, hr] at this
    by_cases hk : k = BackendKind.acidTest
    · subst hk; simpa [hf] using this
    · simpa [hk] using this
  subst hr1; subst hcc
  rfl

lemma load_single_raise (env : CtorEnv) (c : Config) (k : BackendKind)
    (hr : resolveKind c.batch_system = some k) (hf : env.fails k = true) :
    loadTheBatchSystem env c = (.error .ctorRaised, c) := by
  simp only [loadTheBatchSystem]
  rcases h1 : batchSystemConstructionFn env c.batch_system c with ⟨r1, cc⟩
  have hr1 : r1 = .error .ctorRaised := by
    have := bscf_fst env c.batch_system c
    rw [h1, hr] at this; simpa [hf] using this
  have hcc : cc = c := by
    have := bscf_snd env c.batch_system c
    rw [h1, hr] at this
    by_cases hk : k = BackendKind.acidTest
    · subst hk; rw [hf] at this; simpa using this
    · simpa [hk] using this
  subst hr1; subst hcc
  rfl

lemma load_hybrid_ok (env : CtorEnv) (c : Config) (h : Handle) (c' : Config)
    (hl : loadTheBatchSystem env c = (.ok h, c'))
    (hr : resolveKind c.batch_system = none) :
    ∃ ka kb t,
      resolveKind ((pySplit c.batch_system).getD 0 "") = some ka ∧
      resolveKind ((pySplit c.batch_system).getD 1 "") = some kb ∧
      pyFloat ((pySplit c.batch_system).getD 2 "") = some t ∧
      h = .combined c'
            (.single ka { c with max_jobs := toString (hybridMaxJobs c.batch_system) })
            (.single kb (if ka = BackendKind.acidTest then setTry c else c)) t ∧
      c' = (if ka = BackendKind.acidTest ∨ kb = BackendKind.acidTest then setTry c else c) := by
  rw [load_eq_hybrid env c hr] at hl
  simp only [loadHybrid] at hl
  split at hl
  · cases hm : pyFloat ((pySplit c.batch_system).getD 2 "") with
    | none => rw [hm] at hl; simp at hl
    | some t =>
      rw [hm] at hl
      cases hj : (if (pySplit c.batch_system).length = 4
          then pyInt ((pySplit c.batch_system).getD 3 "") else some sysMaxint) with
      | none => rw [hj] at hl; simp at hl
      | some mj =>
        rw [hj] at hl
        have hmj : mj = hybridMaxJobs c.batch_system := by
          by_cases h4 : (pySplit c.batch_system).length = 4
          · rw [if_pos h4] at hj
            unfold hybridMaxJobs
            rw [if_pos h4, hj]
            rfl
          · rw [if_neg h4] at hj
            simp only [Option.some.injEq] at hj
            unfold hybridMaxJobs
            rw [if_neg h4, hj]
        obtain ⟨ka, kb, hka, hkb, _, _, hh, hc'⟩ := hybridCtors_ok env _ _ mj t _ c h c' hl
        exact ⟨ka, kb, t, hka, hkb, rfl, by rw [hh, ← hmj], hc'⟩
  · simp at hl

/-- Whether the configuration mutation the acid-test branch performs occurs
on a successful batch-system load: determined by the backend name alone. -/
def loadMutTry (s : String) : Bool :=
  match resolveKind s with
  | some k => decide (k = BackendKind.acidTest)
  | none =>
    decide (resolveKind ((pySplit s).getD 0 "") = some BackendKind.acidTest) ||
    decide (resolveKind ((pySplit s).getD 1 "") = some BackendKind.acidTest)

lemma load_ok_config (env : CtorEnv) (c : Config) (h : Handle) (c' : Config)
    (hl : loadTheBatchSystem env c = (.ok h, c')) :
    c' = if loadMutTry c.batch_system then setTry c else c := by
  cases hk : resolveKind c.batch_system with
  | some k =>
    by_cases hf : env.fails k
    · rw [load_single_raise env c k hk hf] at hl; simp at hl
    · simp only [Bool.not_eq_true] at hf
      rw [load_single env c k hk hf] at hl
      simp only [Prod.mk.injEq, Except.ok.injEq] at hl
      obtain ⟨_, h2⟩ := hl
      rw [← h2]
      simp only [loadMutTry, hk]
      by_cases hk2 : k = BackendKind.acidTest <;> simp [hk2]
  | none =>
    obtain ⟨ka, kb, t, hka, hkb, _, _, hc'⟩ := load_hybrid_ok env c h c' hl hk
    rw [hc']
    simp only [loadMutTry, hk, hka, hkb]
    by_cases h1 : ka = BackendKind.acidTest <;> by_cases h2 : kb = BackendKind.acidTest <;>
      simp [h1, h2]

/-! ## Characterizations of the workspace lifecycle -/


lemma setTry_eq_self (c : Config) (h : c.try_count = "32") : setTry c = c := by
  cases c
  simp only [setTry]
  simp_all

lemma runScript_reload_missing (env : CtorEnv) (lv : String) (opts : Options) (fs : FS)
    (hjt : opts.jobTree.isSome = true) (hdir : fs.isDir = true)
    (hmiss : fs.configFile = none ∨ fs.envFile = false ∨ fs.jobFileDir = false) :
    ∃ msg, runJobTreeScript env lv opts fs = (.error (.assertionError msg), fs) := by
  rcases hj : opts.jobTree with _ | jt
  · rw [hj] at hjt; simp at hjt
  simp only [runJobTreeScript]
  rw [hj, hdir]
  simp only [if_true]
  rcases hc : fs.configFile with _ | attrs
  · exact ⟨"A valid job tree must contain the config file", by simp [reloadJobTree, hc]⟩
  · rcases hmiss with h1 | h1 | h1
    · rw [hc] at h1; cases h1
    · exact ⟨"A valid job tree must contain a pickle file which encodes the path environment of the job",
        by simp [reloadJobTree, hc, h1]⟩
    · rcases he : fs.envFile with _ | _
      · exact ⟨"A valid job tree must contain a pickle file which encodes the path environment of the job",
          by simp [reloadJobTree, hc, he]⟩
      · exact ⟨"A job tree must have a directory of jobs",
          by simp [reloadJobTree, hc, he, h1]⟩

lemma createJobTree_ok (env : CtorEnv) (lv : String) (opts : Options) (fs : FS)
    (cfg : Config) (hdl : Handle) (fs' : FS) (hdir : fs.isDir = false)
    (hc : createJobTree env lv opts fs = (.ok (cfg, hdl), fs')) :
    ∃ c2 r, loadTheBatchSystem env (draftConfig lv opts) = (.ok hdl, c2) ∧
      cfg = { c2 with rescue_jobs_frequency := some r } ∧
      fs' = { fs with
                isDir := true,
                jobFileDir := true,
                configFile := some (configAttribs cfg) } := by
  simp only [createJobTree, hdir] at hc
  simp only [Bool.false_eq_true, if_false] at hc
  rcases hload : loadTheBatchSystem env (draftConfig lv opts) with ⟨r1, c2⟩
  rw [hload] at hc
  cases r1 with
  | error e => simp at hc
  | ok h =>
    dsimp only at hc
    rcases ho : opts.rescueJobsFrequency with _ | f
    · rw [ho] at hc
      dsimp only at hc
      simp only [Prod.mk.injEq, Except.ok.injEq] at hc
      obtain ⟨⟨hcfg, hhdl⟩, hfs⟩ := hc
      exact ⟨c2, pyFloatStr (env.rescueFreq h), (by rw [hhdl]),
        hcfg.symm, (by rw [← hfs, ← hcfg]; rfl)⟩
    · rw [ho] at hc
      dsimp only at hc
      simp only [Prod.mk.injEq, Except.ok.injEq] at hc
      obtain ⟨⟨hcfg, hhdl⟩, hfs⟩ := hc
      exact ⟨c2, pyFloatStr f, (by rw [hhdl]),
        hcfg.symm, (by rw [← hfs, ← hcfg]; rfl)⟩

lemma runScript_create_ok (env : CtorEnv) (lv : String) (opts : Options) (fs : FS)
    (cfg : Config) (hdl : Handle) (fs' : FS) (hdir : fs.isDir = false)
    (hr : runJobTreeScript env lv opts fs = (.ok (cfg, hdl), fs')) :
    ∃ fsC job cmd,
      opts.command = some cmd ∧
      createJobTree env lv opts fs = (.ok (cfg, hdl), fsC) ∧
      createFirstJob cmd cfg none none = .ok job ∧
      fs' = { fsC with jobRecords := fsC.jobRecords ++ [job], envFile := true } := by
  simp only [runJobTreeScript] at hr
  rcases hj : opts.jobTree with _ | jt
  · rw [hj] at hr; simp at hr
  rw [hj] at hr
  dsimp only at hr
  rw [hdir] at hr
  simp only [Bool.false_eq_true, if_false] at hr
  rcases hcmd : opts.command with _ | cmd
  · rw [hcmd] at hr; simp at hr
  rw [hcmd] at hr
  dsimp only at hr
  rcases hcj : createJobTree env lv opts fs with ⟨rc, fsC⟩
  rw [hcj] at hr
  cases rc with
  | error e => simp at hr
  | ok p =>
    rcases p with ⟨c1, h1⟩
    dsimp only at hr
    rcases hfj : createFirstJob cmd c1 none none with e | job
    · rw [hfj] at hr; simp at hr
    · rw [hfj] at hr
      dsimp only [loadEnvironment] at hr
      simp only [Prod.mk.injEq, Except.ok.injEq] at hr
      obtain ⟨⟨hc1, hh1⟩, hfs⟩ := hr
      rw [hc1] at hfj
      exact ⟨fsC, job, cmd, rfl, (by rw [hc1, hh1]), hfj, hfs.symm⟩

lemma createFirstJob_none_ok (cmd : String) (c : Config) (job : Job)
    (h : createFirstJob cmd c none none = .ok job) :
    pyFloat c.default_memory = some job.memory ∧ pyFloat c.default_cpu = some job.cpu ∧
    pyInt c.try_count = some job.tryCount ∧ job.command = cmd ∧
    job.jobDir = getJobFileDirName c.job_tree := by
  simp only [createFirstJob] at h
  rcases hm : pyFloat c.default_memory with _ | dm
  · rw [hm] at h
    have h2 : (Except.error RtErr.valueError : Except RtErr Job) = Except.ok job := h
    cases h2
  rw [hm] at h
  rcases hc : pyFloat c.default_cpu with _ | dc
  · rw [hc] at h
    have h2 : (Except.error RtErr.valueError : Except RtErr Job) = Except.ok job := h
    cases h2
  rw [hc] at h
  rcases ht : pyInt c.try_count with _ | tc
  · rw [ht] at h
    have h2 : (Except.error RtErr.valueError : Except RtErr Job) = Except.ok job := h
    cases h2
  rw [ht] at h
  have h3 : Except.ok (Job.mk cmd dm dc tc (getJobFileDirName c.job_tree)) = Except.ok job := h
  rw [Except.ok.injEq] at h3
  rw [← h3]
  exact ⟨rfl, rfl, rfl, rfl, rfl⟩


lemma reloadJobTree_ok (env : CtorEnv) (lv : String) (fs : FS) (c2 : Config)
    (h2 : Handle) (fs2 : FS) (attrs : List (String × String)) (c1 : Config)
    (hcf : fs.configFile = some attrs)
    (hparse : parseConfig attrs = some c1)
    (hr : reloadJobTree env lv fs = (.ok (c2, h2), fs2)) :
    loadTheBatchSystem env { c1 with log_level := lv } = (.ok h2, c2) ∧
    fs2 = writeConfig { c1 with log_level := lv } fs := by
  simp only [reloadJobTree, hcf] at hr
  rcases he : fs.envFile with _ | _
  · rw [he] at hr; simp at hr
  rw [he] at hr
  simp only [Bool.not_true, Bool.false_eq_true, if_false] at hr
  rcases hjd : fs.jobFileDir with _ | _
  · rw [hjd] at hr; simp at hr
  rw [hjd] at hr
  simp only [Bool.not_true, Bool.false_eq_true, if_false] at hr
  rw [hparse] at hr
  dsimp only at hr
  rcases hload : loadTheBatchSystem env { c1 with log_level := lv } with ⟨r, cc⟩
  rw [hload] at hr
  cases r with
  | error e => simp at hr
  | ok hh =>
    dsimp only at hr
    simp only [Prod.mk.injEq, Except.ok.injEq] at hr
    obtain ⟨⟨hcc, hhh⟩, hfs⟩ := hr
    exact ⟨(by rw [hhh, hcc]), hfs.symm⟩

/-! ## The claims -/


/-! ## Concrete instances used by counterexamples and witnesses -/

/-- An external world in which every backend constructor succeeds and every
handle reports a rescue-job frequency of 10 seconds. -/
def envAllOk : CtorEnv := { fails := fun _ => false, rescueFreq := fun _ => 10 }

/-- An external world in which the parasol constructor raises. -/
def envParasolRaises : CtorEnv :=
  { fails := fun k => decide (k = BackendKind.parasol), rescueFreq := fun _ => 10 }

/-- A concrete caller-configured record: max_jobs "10", try_count "2". -/
def baseConfig : Config :=
  { log_level := "INFO", job_tree := "/tmp/jt", parasol_command := "parasol",
    try_count := "2", max_job_duration := "100.0", batch_system := "singleMachine",
    job_time := "30.0", max_log_file_size := "50120", default_memory := "100",
    default_cpu := "1", max_jobs := "10", max_threads := "4", stats := none,
    rescue_jobs_frequency := none }

/-- baseConfig with the given backend name. -/
def withBS (s : String) : Config := { baseConfig with batch_system := s }

/-- The max_jobs value recorded by the first sub-backend of a combined
handle at its construction. -/
def Handle.firstRecordedMaxJobs : Handle → Option String
  | .combined _ b1 _ _ => b1.recordedMaxJobs
  | .single _ _ => none

/-- The max_jobs value recorded by the second sub-backend of a combined
handle at its construction. -/
def Handle.secondRecordedMaxJobs : Handle → Option String
  | .combined _ _ b2 _ => b2.recordedMaxJobs
  | .single _ _ => none

/-- Whether batch-system loading returned a handle (rather than raising). -/
def returnsHandle (r : Except RtErr Handle × Config) : Bool :=
  match r.1 with
  | .ok _ => true
  | .error _ => false

/-- The concrete well-formed 4-field hybrid spec used as a counterexample
input: constructing backend A (parasol) raises, and the claimed restoration
of max_jobs does not happen: the override "5" remains in place of "10". -/
theorem C1_counterexample :
    hybridWellFormed (withBS "parasol singleMachine 1000000 5").batch_system = true ∧
    (withBS "parasol singleMachine 1000000 5").max_jobs = "10" ∧
    (loadTheBatchSystem envParasolRaises (withBS "parasol singleMachine 1000000 5")).1
      = .error .ctorRaised ∧
    ((loadTheBatchSystem envParasolRaises (withBS "parasol singleMachine 1000000 5")).2).max_jobs
      = "5" := by
  refine ⟨?_, ?_, ?_, ?_⟩ <;> with_unfolding_all rfl

/-- C1 (amended): for every well-formed 3- or 4-field hybrid backend spec,
after hybrid construction completes the shared configuration max_jobs field
equals the value it held before construction began, PROVIDED the external
constructor of backend A does not raise; when it raises, the temporary
override is not restored (the source has no try/finally). -/
theorem C1_max_jobs_restored_unless_ctorA_raises (env : CtorEnv) (cfg : Config)
    (hw : hybridWellFormed cfg.batch_system = true)
    (hA : ctorRaisesOnName env ((pySplit cfg.batch_system).getD 0 "") = false) :
    ((loadTheBatchSystem env cfg).2).max_jobs = cfg.max_jobs := by
  have hr : resolveKind cfg.batch_system = none := by
    simp only [hybridWellFormed, Bool.and_eq_true, Option.isNone_iff_eq_none] at hw
    exact hw.1.1.1
  rw [load_eq_hybrid env cfg hr]
  exact loadHybrid_max_jobs env cfg.batch_system cfg hA

/-- C1 witness: a concrete run in which no constructor raises. -/
theorem C1_witness :
    ((loadTheBatchSystem envAllOk (withBS "parasol singleMachine 1000000 5")).2).max_jobs
      = (withBS "parasol singleMachine 1000000 5").max_jobs :=
  C1_max_jobs_restored_unless_ctorA_raises envAllOk (withBS "parasol singleMachine 1000000 5")
    (by with_unfolding_all rfl) (by with_unfolding_all rfl)

/-- C2 counterexample: a concrete 3-field hybrid spec with caller-configured
max_jobs "10": backend A is constructed with max_jobs str(sys.maxint), not
the current caller-configured value "10". -/
theorem C2_counterexample :
    ((loadTheBatchSystem envAllOk (withBS "parasol singleMachine 100")).1.toOption.map
      Handle.firstRecordedMaxJobs) = some (some (toString sysMaxint)) ∧
    toString sysMaxint = "9223372036854775807" ∧
    (withBS "parasol singleMachine 100").max_jobs = "10" ∧
    ¬ ("9223372036854775807" = ("10" : String)) := by
  refine ⟨?_, ?_, ?_, ?_⟩
  · with_unfolding_all rfl
  · with_unfolding_all rfl
  · with_unfolding_all rfl
  · decide

/-- C2 (amended): on a successful hybrid construction, backend A is
constructed while the shared max_jobs field holds str(maxJobs) where maxJobs
is the 4th field when present and sys.maxint in the 3-field form; backend B
is constructed with the original max_jobs value. -/
theorem C2_subbackend_max_jobs (env : CtorEnv) (cfg : Config) (h : Handle) (c' : Config)
    (hr : resolveKind cfg.batch_system = none)
    (hl : loadTheBatchSystem env cfg = (.ok h, c')) :
    ∃ ka kb t cB,
      h = .combined c'
            (.single ka { cfg with max_jobs := toString (hybridMaxJobs cfg.batch_system) })
            (.single kb cB) t ∧
      cB.max_jobs = cfg.max_jobs ∧
      ((pySplit cfg.batch_system).length ≠ 4 → hybridMaxJobs cfg.batch_system = sysMaxint) := by
  obtain ⟨ka, kb, t, hka, hkb, ht, hh, hc'⟩ := load_hybrid_ok env cfg h c' hl hr
  refine ⟨ka, kb, t, _, hh, ?_, ?_⟩
  · by_cases hkaa : ka = BackendKind.acidTest <;> simp [hkaa, setTry]
  · intro h4
    unfold hybridMaxJobs
    rw [if_neg h4]

def cfgHybrid : Config := withBS "singleMachine singleMachine 1000000 5"

def hdlHybrid : Handle :=
  .combined cfgHybrid (.single .singleMachine { cfgHybrid with max_jobs := "5" })
    (.single .singleMachine cfgHybrid) 1000000

/-- C2 witness: the concrete 4-field spec, override 5, original 10. -/
theorem C2_witness :
    ∃ ka kb t cB,
      hdlHybrid = .combined cfgHybrid
            (.single ka { cfgHybrid with max_jobs := toString (hybridMaxJobs cfgHybrid.batch_system) })
            (.single kb cB) t ∧
      cB.max_jobs = cfgHybrid.max_jobs ∧
      ((pySplit cfgHybrid.batch_system).length ≠ 4 → hybridMaxJobs cfgHybrid.batch_system = sysMaxint) :=
  C2_subbackend_max_jobs envAllOk cfgHybrid hdlHybrid cfgHybrid
    (by with_unfolding_all rfl) (by with_unfolding_all rfl)

/-- C3: for every hybrid handle built from a spec with memory threshold t,
the routing predicate selects backend A exactly when memory is at most t
(boundary inclusive to A). -/
theorem C3_routing_predicate (env : CtorEnv) (cfg : Config) (h : Handle) (c' : Config) (t : ℚ)
    (hr : resolveKind cfg.batch_system = none)
    (hl : loadTheBatchSystem env cfg = (.ok h, c'))
    (ht : pyFloat ((pySplit cfg.batch_system).getD 2 "") = some t) :
    ∀ command memory cpu, h.routesToA command memory cpu = some (decide (memory ≤ t)) := by
  obtain ⟨ka, kb, t', hka, hkb, ht', hh, hc'⟩ := load_hybrid_ok env cfg h c' hl hr
  have htt : t' = t := by
    have := ht'.symm.trans ht
    simpa using this
  subst htt
  rw [hh]
  intro command memory cpu
  rfl

/-- C3 witness: the concrete spec from the claim, threshold 1000000. -/
theorem C3_witness :
    hdlHybrid.routesToA "x" 500000 1 = some true ∧
    hdlHybrid.routesToA "x" 2000000 1 = some false ∧
    hdlHybrid.routesToA "x" 1000000 1 = some true := by
  have hroute := C3_routing_predicate envAllOk cfgHybrid hdlHybrid cfgHybrid 1000000
    (by with_unfolding_all rfl) (by with_unfolding_all rfl) (by with_unfolding_all rfl)
  refine ⟨?_, ?_, ?_⟩
  · exact (hroute "x" 500000 1).trans (by with_unfolding_all rfl)
  · exact (hroute "x" 2000000 1).trans (by with_unfolding_all rfl)
  · exact (hroute "x" 1000000 1).trans (by with_unfolding_all rfl)

/-- C5: batch-system construction fails for a name that is neither a known single-backend
token nor a well-formed hybrid spec: "quantumCluster" (no hybrid shape),
"a b notanumber" (non-numeric threshold), "a b 100 x y" (5 fields), and any
hybrid whose sub-backend names are not both recognised returns no handle. -/
theorem C5_unrecognised_fails :
    (loadTheBatchSystem envAllOk (withBS "quantumCluster")).1
      = .error (.unrecognisedBatchSystem "quantumCluster") ∧
    (loadTheBatchSystem envAllOk (withBS "a b notanumber")).1 = .error .valueError ∧
    (loadTheBatchSystem envAllOk (withBS "a b 100 x y")).1
      = .error (.unrecognisedBatchSystem "a b 100 x y") ∧
    ∀ env cfg, resolveKind cfg.batch_system = none →
      (resolveKind ((pySplit cfg.batch_system).getD 0 "") = none ∨
       resolveKind ((pySplit cfg.batch_system).getD 1 "") = none) →
      returnsHandle (loadTheBatchSystem env cfg) = false := by
  refine ⟨?_, ?_, ?_, ?_⟩
  · with_unfolding_all rfl
  · with_unfolding_all rfl
  · with_unfolding_all rfl
  · intro env cfg hr htok
    cases hres : (loadTheBatchSystem env cfg).1 with
    | error e => simp [returnsHandle, hres]
    | ok h =>
      exfalso
      have hl : loadTheBatchSystem env cfg = (.ok h, (loadTheBatchSystem env cfg).2) := by
        rw [← hres]
      obtain ⟨ka, kb, t, hka, hkb, _⟩ := load_hybrid_ok env cfg h _ hl hr
      rcases htok with h1 | h1
      · rw [h1] at hka; cases hka
      · rw [h1] at hkb; cases hkb

/-- C5 witness: a hybrid spec whose first sub-backend name is unrecognised. -/
theorem C5_witness :
    returnsHandle (loadTheBatchSystem envAllOk (withBS "foo singleMachine 100")) = false :=
  C5_unrecognised_fails.2.2.2 envAllOk (withBS "foo singleMachine 100")
    (by with_unfolding_all rfl) (Or.inl (by with_unfolding_all rfl))

/-- C9 counterexample: the capitalised spelling "Parasol" is not recognised,
while "parasol" is: name matching is not case-insensitive. -/
theorem C9_counterexample :
    (loadTheBatchSystem envAllOk (withBS "Parasol")).1
      = .error (.unrecognisedBatchSystem "Parasol") ∧
    (loadTheBatchSystem envAllOk (withBS "parasol")).1
      = .ok (.single .parasol (withBS "parasol")) := by
  refine ⟨?_, ?_⟩ <;> with_unfolding_all rfl

/-- C9 (amended): single-backend name resolution is an exact string match
over a fixed set of spellings, two per backend (snake_case/camelCase, or a
capitalised alternate for torque and the drmaa variants); case variants
outside this set, such as "Parasol" or "SINGLEMACHINE", are not recognised. -/
theorem C9_exact_synonyms :
    resolveKind "parasol" = some .parasol ∧
    resolveKind "single_machine" = some .singleMachine ∧
    resolveKind "singleMachine" = some .singleMachine ∧
    resolveKind "gridengine" = some .gridengine ∧
    resolveKind "gridEngine" = some .gridengine ∧
    resolveKind "torque" = some .torque ∧
    resolveKind "Torque" = some .torque ∧
    resolveKind "drmaa" = some .drmaa ∧
    resolveKind "Drmaa" = some .drmaa ∧
    resolveKind "drmaaTorque" = some .drmaaTorque ∧
    resolveKind "DrmaaTorque" = some .drmaaTorque ∧
    resolveKind "acid_test" = some .acidTest ∧
    resolveKind "acidTest" = some .acidTest ∧
    resolveKind "Parasol" = none ∧
    resolveKind "SINGLEMACHINE" = none ∧
    resolveKind "Single_Machine" = none ∧
    resolveKind "ACIDTEST" = none := by
  refine ⟨?_, ?_, ?_, ?_, ?_, ?_, ?_, ?_, ?_, ?_, ?_, ?_, ?_, ?_, ?_, ?_, ?_⟩ <;>
    with_unfolding_all rfl


/-- A path with nothing at it yet. -/
def fsEmpty : FS :=
  { isDir := false, configFile := none, envFile := false, jobFileDir := false, jobRecords := [] }

/-- Concrete CLI options selecting the single-machine backend. -/
def optsSingle : Options :=
  { command := some "echo hi", jobTree := some "/tmp/jt", batchSystem := "singleMachine",
    parasolCommand := "parasol", retryCount := 0, maxJobDuration := 100, jobTime := 30,
    maxLogFileSize := 50120, defaultMemory := 100, defaultCpu := 1, maxJobs := 2,
    maxThreads := 4, stats := false, rescueJobsFrequency := some 10 }

/-- The same options selecting the acid-test backend. -/
def optsAcid : Options := { optsSingle with batchSystem := "acidTest" }

/-- C4: an existing workspace directory missing any of the three required
artifacts makes the run fail with the corresponding assertion error, leaving
the file system untouched (no fallback to create, no repair). -/
theorem C4_reload_requires_artifacts (env : CtorEnv) (lv : String) (opts : Options) (fs : FS)
    (hjt : opts.jobTree.isSome = true) (hdir : fs.isDir = true)
    (hmiss : fs.configFile = none ∨ fs.envFile = false ∨ fs.jobFileDir = false) :
    ∃ msg, runJobTreeScript env lv opts fs = (.error (.assertionError msg), fs) :=
  runScript_reload_missing env lv opts fs hjt hdir hmiss

/-- A workspace directory holding only the configuration file. -/
def fsOnlyConfig : FS :=
  { isDir := true, configFile := some (configAttribs baseConfig), envFile := false,
    jobFileDir := false, jobRecords := [] }

/-- C4 witness: a directory holding only the configuration file. -/
theorem C4_witness :
    ∃ msg, runJobTreeScript envAllOk "INFO" optsSingle fsOnlyConfig
      = (.error (.assertionError msg), fsOnlyConfig) :=
  C4_reload_requires_artifacts envAllOk "INFO" optsSingle fsOnlyConfig rfl rfl
    (Or.inr (Or.inl rfl))

/-- C7 counterexample: a record with a literal tab in a field does not
round-trip: the serializer writes the tab raw and the attribute read
normalizes it to a space. -/
theorem C7_counterexample :
    parseConfig (configAttribs { baseConfig with job_tree := "/tmp/a\tb" })
      = some { baseConfig with job_tree := "/tmp/a b" } ∧
    ¬ (({ baseConfig with job_tree := "/tmp/a b" } : Config)
        = { baseConfig with job_tree := "/tmp/a\tb" }) := by
  refine ⟨?_, ?_⟩
  · with_unfolding_all rfl
  · decide

/-- C7 (amended): writing a configuration record to the config file and
reading it back yields the record with every literal tab or carriage return
in a string field replaced by a space (XML attribute-value normalization:
the serializer escapes the newline but writes tab and carriage return raw);
in particular the record is recovered field for field whenever no field
holds a literal tab or carriage return. -/
theorem C7_config_file_roundtrip (c : Config) :
    parseConfig (configAttribs c) = some (normalizeConfig c) ∧
    (configTabCrFree c = true → parseConfig (configAttribs c) = some c) :=
  ⟨config_roundtrip_norm c, fun h => config_roundtrip c h⟩

/-- C7 witness: the tab-free concrete record round-trips exactly. -/
theorem C7_witness : parseConfig (configAttribs baseConfig) = some baseConfig :=
  (C7_config_file_roundtrip baseConfig).2 (by decide)

/-- C6 (amended): creating a workspace whose persisted configuration holds
no literal tab or carriage return in any field and immediately reloading it
yields a configuration identical to the created one except for the log-level
field, and persists exactly that record. (Without that restriction the
attribute read normalizes literal tab and carriage return to spaces, so such
characters change further fields on reload.) -/
theorem C6_reload_changes_only_log_level
    (env : CtorEnv) (lv1 lv2 : String) (opts : Options) (fs0 : FS)
    (c1 : Config) (h1 : Handle) (fs1 : FS) (c2 : Config) (h2 : Handle) (fs2 : FS)
    (hclean : configTabCrFree c1 = true)
    (hdir : fs0.isDir = false)
    (hrun : runJobTreeScript env lv1 opts fs0 = (.ok (c1, h1), fs1))
    (hrel : reloadJobTree env lv2 fs1 = (.ok (c2, h2), fs2)) :
    c2 = { c1 with log_level := lv2 } ∧
    fs2.configFile = some (configAttribs c2) := by
  obtain ⟨fsC, job, cmd, hcmd, hcj, hfj, hfs1⟩ :=
    runScript_create_ok env lv1 opts fs0 c1 h1 fs1 hdir hrun
  obtain ⟨c2d, r, hload1, hc1, hfsC⟩ := createJobTree_ok env lv1 opts fs0 c1 h1 fsC hdir hcj
  have hcf : fs1.configFile = some (configAttribs c1) := by
    rw [hfs1, hfsC]
  obtain ⟨hload2, hfs2⟩ :=
    reloadJobTree_ok env lv2 fs1 c2 h2 fs2 (configAttribs c1) c1 hcf (config_roundtrip c1 hclean) hrel
  have hA := load_ok_config env (draftConfig lv1 opts) h1 c2d hload1
  have hB := load_ok_config env { c1 with log_level := lv2 } h2 c2 hload2
  have hmq : loadMutTry ({ c1 with log_level := lv2 } : Config).batch_system
      = loadMutTry (draftConfig lv1 opts).batch_system := by
    have hbs : c1.batch_system = (draftConfig lv1 opts).batch_system := by
      rw [hc1]
      show c2d.batch_system = _
      rw [hA]
      split <;> rfl
    show loadMutTry c1.batch_system = _
    rw [hbs]
  have hc2eq : c2 = { c1 with log_level := lv2 } := by
    rw [hB]
    by_cases hmut : loadMutTry (draftConfig lv1 opts).batch_system
    · rw [if_pos (show _ = true by rw [hmq]; exact hmut)]
      apply setTry_eq_self
      show c1.try_count = "32"
      rw [hc1]
      show c2d.try_count = "32"
      rw [hA, if_pos hmut]
      rfl
    · have hneg : ¬ (loadMutTry ({ c1 with log_level := lv2 } : Config).batch_system = true) := by
        rw [hmq]
        exact hmut
      rw [if_neg hneg]
  refine ⟨hc2eq, ?_⟩
  rw [hfs2, ← hc2eq]
  rfl

/-- The configuration a create run with optsSingle persists. -/
def cW : Config :=
  { log_level := "INFO", job_tree := "/tmp/jt", parasol_command := "parasol",
    try_count := "1", max_job_duration := "100.0", batch_system := "singleMachine",
    job_time := "30.0", max_log_file_size := "50120", default_memory := "100",
    default_cpu := "1", max_jobs := "2", max_threads := "4", stats := none,
    rescue_jobs_frequency := some "10.0" }

/-- The handle the create run constructs (it records the draft config,
whose rescue-jobs frequency is not yet set). -/
def hW : Handle := .single .singleMachine { cW with rescue_jobs_frequency := none }

/-- The root job record the create run writes. -/
def jobW : Job := Job.mk "echo hi" 100 1 1 "/tmp/jt/jobs"

/-- The file system after the create run. -/
def fs1W : FS :=
  { isDir := true, configFile := some (configAttribs cW), envFile := true,
    jobFileDir := true, jobRecords := [jobW] }

/-- The configuration after reloading at log level DEBUG. -/
def cW2 : Config := { cW with log_level := "DEBUG" }

/-- The file system after the reload run. -/
def fs2W : FS := { fs1W with configFile := some (configAttribs cW2) }

/-- Options whose workspace path holds a literal tab. -/
def optsTab : Options := { optsSingle with jobTree := some "/tmp/a\tb" }

/-- The configuration that create run persists: the tab is written raw. -/
def cTabW : Config := { cW with job_tree := "/tmp/a\tb" }

/-- The handle that create run constructs. -/
def hTabW : Handle := .single .singleMachine { cTabW with rescue_jobs_frequency := none }

/-- The root job record that create run writes. -/
def jobTabW : Job := Job.mk "echo hi" 100 1 1 "/tmp/a\tb/jobs"

/-- The file system after that create run. -/
def fs1TabW : FS :=
  { isDir := true, configFile := some (configAttribs cTabW), envFile := true,
    jobFileDir := true, jobRecords := [jobTabW] }

/-- The configuration the reload run returns: the tab came back as a space. -/
def cTabW2 : Config := { cTabW with job_tree := "/tmp/a b", log_level := "DEBUG" }

/-- The file system after that reload run. -/
def fs2TabW : FS := { fs1TabW with configFile := some (configAttribs cTabW2) }

/-- C6 counterexample: creating a workspace at a path holding a literal tab
and immediately reloading it changes the job_tree field as well (the tab is
written raw and read back as a space), so the reloaded configuration is not
the created one with only the log level replaced. -/
theorem C6_counterexample :
    runJobTreeScript envAllOk "INFO" optsTab fsEmpty = (.ok (cTabW, hTabW), fs1TabW) ∧
    reloadJobTree envAllOk "DEBUG" fs1TabW
      = (.ok (cTabW2, .single .singleMachine cTabW2), fs2TabW) ∧
    cTabW.job_tree = "/tmp/a\tb" ∧
    cTabW2.job_tree = "/tmp/a b" ∧
    ¬ (cTabW2 = { cTabW with log_level := "DEBUG" }) := by
  refine ⟨?_, ?_, ?_, ?_, ?_⟩
  · with_unfolding_all rfl
  · with_unfolding_all rfl
  · rfl
  · rfl
  · decide

/-- C6 witness: a concrete create run at INFO followed by a reload at DEBUG. -/
theorem C6_witness :
    cW2 = { cW with log_level := "DEBUG" } ∧ fs2W.configFile = some (configAttribs cW2) :=
  C6_reload_changes_only_log_level envAllOk "INFO" "DEBUG" optsSingle fsEmpty
    cW hW fs1W cW2 (.single .singleMachine cW2) fs2W (by decide) rfl
    (by with_unfolding_all rfl) (by with_unfolding_all rfl)

/-- C8 counterexample: with the acid-test backend selected, the root job
record is written with try-count 32 although retryCount is 0: try-count is
not retryCount + 1. -/
theorem C8_counterexample :
    ((runJobTreeScript envAllOk "INFO" optsAcid fsEmpty).2).jobRecords.map Job.tryCount = [32] ∧
    optsAcid.retryCount + 1 = 1 ∧ ¬ ((32 : Int) = 1) := by
  refine ⟨?_, ?_, ?_⟩
  · with_unfolding_all rfl
  · with_unfolding_all rfl
  · decide

/-- C8 (amended): a created workspace writes exactly one root job record,
whose memory and cpu are the parsed configured defaults (which equal the
stringified caller options), and whose try-count is the parsed try_count
field; that field is str(retryCount + 1) whenever the backend spec involves
no acid-test backend. -/
theorem C8_first_job_defaults
    (env : CtorEnv) (lv : String) (opts : Options) (fs : FS)
    (cfg : Config) (hdl : Handle) (fs' : FS)
    (hdir : fs.isDir = false)
    (hr : runJobTreeScript env lv opts fs = (.ok (cfg, hdl), fs')) :
    ∃ job, fs'.jobRecords = fs.jobRecords ++ [job] ∧
      pyFloat cfg.default_memory = some job.memory ∧
      pyFloat cfg.default_cpu = some job.cpu ∧
      pyInt cfg.try_count = some job.tryCount ∧
      cfg.default_memory = toString opts.defaultMemory ∧
      cfg.default_cpu = toString opts.defaultCpu ∧
      (loadMutTry opts.batchSystem = false → cfg.try_count = toString (opts.retryCount + 1)) := by
  obtain ⟨fsC, job, cmd, hcmd, hcj, hfj, hfs'⟩ :=
    runScript_create_ok env lv opts fs cfg hdl fs' hdir hr
  obtain ⟨c2d, r, hload1, hc1, hfsC⟩ := createJobTree_ok env lv opts fs cfg hdl fsC hdir hcj
  obtain ⟨hm, hcpu, ht, _, _⟩ := createFirstJob_none_ok cmd cfg job hfj
  have hA := load_ok_config env (draftConfig lv opts) hdl c2d hload1
  refine ⟨job, ?_, hm, hcpu, ht, ?_, ?_, ?_⟩
  · rw [hfs', hfsC]
  · rw [hc1]
    show c2d.default_memory = _
    rw [hA]
    split <;> rfl
  · rw [hc1]
    show c2d.default_cpu = _
    rw [hA]
    split <;> rfl
  · intro hnm
    have hbs : (draftConfig lv opts).batch_system = opts.batchSystem := rfl
    rw [hc1]
    show c2d.try_count = _
    rw [hA, if_neg (by rw [hbs, hnm]; simp)]
    rfl

/-- C8 witness: the concrete single-machine create run. -/
theorem C8_witness :
    ∃ job, fs1W.jobRecords = fsEmpty.jobRecords ++ [job] ∧
      pyFloat cW.default_memory = some job.memory ∧
      pyFloat cW.default_cpu = some job.cpu ∧
      pyInt cW.try_count = some job.tryCount ∧
      cW.default_memory = toString optsSingle.defaultMemory ∧
      cW.default_cpu = toString optsSingle.defaultCpu ∧
      (loadMutTry optsSingle.batchSystem = false →
        cW.try_count = toString (optsSingle.retryCount + 1)) :=
  C8_first_job_defaults envAllOk "INFO" optsSingle fsEmpty cW hW fs1W rfl
    (by with_unfolding_all rfl)

/-- C10: a memory or cpu argument equal to sys.maxint is treated the same as
an omitted (None) argument and replaced by the configured default; any other
supplied value is used as given. -/
theorem C10_maxint_as_default (cfg : Config) (cmd : String) (m c : ℚ) (tc : Int)
    (ht : pyInt cfg.try_count = some tc) :
    createFirstJob cmd cfg (some ((sysMaxint : Int) : ℚ)) (some ((sysMaxint : Int) : ℚ))
        = createFirstJob cmd cfg none none ∧
    (m ≠ ((sysMaxint : Int) : ℚ) → c ≠ ((sysMaxint : Int) : ℚ) →
      createFirstJob cmd cfg (some m) (some c)
        = .ok (Job.mk cmd m c tc (getJobFileDirName cfg.job_tree))) := by
  constructor
  · simp [createFirstJob]
  · intro hm hc
    simp [createFirstJob, hm, hc, ht, ofParse, Except.bind, bind, pure, Except.pure]

/-- C10 witness: sys.maxint arguments behave as omitted ones; 7 and 3 are
used as given. -/
theorem C10_witness :
    (createFirstJob "c" baseConfig (some ((sysMaxint : Int) : ℚ))
        (some ((sysMaxint : Int) : ℚ))
      = createFirstJob "c" baseConfig none none) ∧
    createFirstJob "c" baseConfig (some 7) (some 3)
      = .ok (Job.mk "c" 7 3 2 (getJobFileDirName baseConfig.job_tree)) := by
  have h := C10_maxint_as_default baseConfig "c" 7 3 2 (by with_unfolding_all rfl)
  exact ⟨h.1, h.2 (by norm_num [sysMaxint]) (by norm_num [sysMaxint])⟩

end JobTreeRun
